import Mathlib

/-!
Verification of the email QA evaluation pipeline (backend of the
email-test-agent repository): deterministic checks, heuristic evaluators
(compliance / tone / accessibility), the risk-scoring aggregator, the
overall-status decision, the top-issues view and the fix-suggestion
generator.

Conventions of the embedding:
* Python dictionaries with free-form string keys (the duck-typed `Issue`
  records) are association lists `List (String × String)`; `dict.get(k, d)`
  is `(l.lookup k).getD d`.
* Deterministic test records always carry `test_name` / `status` /
  `details` (every producer in `deterministic_tests.py` sets the three),
  so they are a structure; possible extra fields are kept in `extra`.
* Numeric scores (Python floats) are modelled as rationals `ℚ`.
* HTML parsing by BeautifulSoup and the regular-expression text analyses
  are external to the evaluated logic; their outputs (list of images,
  anchors, text nodes, sentences, match counts) are fields of the input
  structures, while raw-substring checks of the source are modelled
  concretely on the raw string.
* `list.sort(key=…)` (Python, stable) is `List.mergeSort` with the
  corresponding boolean comparison, which is the stable sort.
-/

namespace EmailQA

/-- Duck-typed issue dictionary: string keys to string values. -/
abbrev Issue := List (String × String)

/-- `issue.get(key, default)` from the source. -/
def issueGet (i : Issue) (k d : String) : String :=
  (i.lookup k).getD d

/-- The issue dictionaries built by the three heuristic agents:
`{"rule": r, "description": d, "severity": s}`. -/
def mkIssue (rule description severity : String) : Issue :=
  [("rule", rule), ("description", description), ("severity", severity)]

/-- A deterministic test result `{test_name, status, details}` as produced
in `deterministic_tests.py`; `extra` holds any further fields. -/
structure DetResult where
  testName : String
  status : String
  details : String
  extra : List (String × String) := []
deriving DecidableEq

/-- The dictionary view of a deterministic result, used where the source
treats it as a plain dict (fix generation). -/
def DetResult.fields (t : DetResult) : List (String × String) :=
  [("test_name", t.testName), ("status", t.status), ("details", t.details)] ++ t.extra

/-- Email metadata mapping with the recognized keys; a missing key is
`none` and `metadata.get(k, "")` is `getD ""`. -/
structure Metadata where
  subject : Option String := none
  preheader : Option String := none
  templateName : Option String := none
  locale : Option String := none
deriving DecidableEq

/-- An `<img>` element as seen through the parser: its `alt`, `width` and
`height` attributes (absent attribute is `none`). -/
structure Img where
  alt : Option String := none
  width : Option String := none
  height : Option String := none
deriving DecidableEq

/-- An `<a href=…>` element: its `href` attribute and its stripped text
content. -/
structure Anchor where
  href : String
  text : String := ""
deriving DecidableEq

/-- An email HTML document: the raw markup (checked by raw substring
containment in the source) together with the parser-derived views used by
`deterministic_tests.py` and the accessibility agent. -/
structure EmailDoc where
  raw : String := ""
  images : List Img := []
  anchors : List Anchor := []
  textNodes : List String := []
  headingTags : List String := []
  hasListContainer : Bool := false
  hasListItems : Bool := false
  hasColorDecl : Bool := false
  hasBgDecl : Bool := false
deriving DecidableEq

/-- Boolean infix test on character lists (Python `sub in s`). -/
def infixB (n : List Char) : List Char → Bool
  | [] => n.isEmpty
  | c :: t => n.isPrefixOf (c :: t) || infixB n t

/-- Python `sub in hay` on strings. -/
def containsStr (hay sub : String) : Bool := infixB sub.data hay.data

/-- ASCII lowercase letter (what `Char.isLower` tests, stated on `Nat` so
the kernel can evaluate it). -/
def chIsLower (c : Char) : Bool := 97 ≤ c.toNat && c.toNat ≤ 122

/-- ASCII uppercase letter. -/
def chIsUpper (c : Char) : Bool := 65 ≤ c.toNat && c.toNat ≤ 90

/-- Whitespace in the sense of `str.strip` (space, tab, LF, VT, FF, CR). -/
def chIsSpace (c : Char) : Bool := c.toNat = 32 || (9 ≤ c.toNat && c.toNat ≤ 13)

/-- ASCII `str.lower` on a string. -/
def strLower (s : String) : String := String.mk (s.data.map Char.toLower)

/-- `str.strip()`: drop whitespace from both ends. -/
def strTrim (s : String) : String :=
  String.mk (((s.data.dropWhile chIsSpace).reverse.dropWhile chIsSpace).reverse)

/-! ## Deterministic tests (`deterministic_tests.py`) -/

/-- `check_alt_text`: one result per image (fail when `alt` is missing or
blank), plus a pass placeholder when there are no images. -/
def check_alt_text (doc : EmailDoc) : List DetResult :=
  let issues := doc.images.map fun img =>
    match img.alt with
    | none => { testName := "alt_text", status := "fail",
                details := "Image missing ALT text" }
    | some a =>
      if strTrim a = "" then
        { testName := "alt_text", status := "fail",
          details := "Image missing ALT text" }
      else
        { testName := "alt_text", status := "pass", details := "ALT text present" }
  if issues = [] then
    [{ testName := "alt_text", status := "pass",
       details := "No images found, ALT text check passed" }]
  else issues

/-- `check_links`: one result per anchor with an `href`, failing on a
scheme other than `http://`, `https://`, `mailto:` or `#`. -/
def check_links (doc : EmailDoc) : List DetResult :=
  let issues := doc.anchors.map fun link =>
    if link.href.startsWith "http://" || link.href.startsWith "https://"
        || link.href.startsWith "mailto:" || link.href.startsWith "#" then
      { testName := "links", status := "pass",
        details := "Valid link: " ++ link.href }
    else
      { testName := "links", status := "fail",
        details := "Malformed link: " ++ link.href }
  if issues = [] then
    [{ testName := "links", status := "pass",
       details := "No links found, link check passed" }]
  else issues

/-- `check_subject_line`: a single fail result when the subject is absent
or blank, a single pass result otherwise. -/
def check_subject_line (metadata : Metadata) : List DetResult :=
  let subject := metadata.subject.getD ""
  if strTrim subject = "" then
    [{ testName := "subject_line", status := "fail", details := "Missing subject line" }]
  else
    [{ testName := "subject_line", status := "pass",
       details := "Subject line present: " ++ subject }]

/-- `check_preheader`: single result, fail when absent or blank. -/
def check_preheader (metadata : Metadata) : List DetResult :=
  let preheader := metadata.preheader.getD ""
  if strTrim preheader = "" then
    [{ testName := "preheader", status := "fail", details := "Missing preheader" }]
  else
    [{ testName := "preheader", status := "pass", details := "Preheader present" }]

/-- `check_template_meta`: two results, one for `template_name` and one
for `locale`. -/
def check_template_meta (metadata : Metadata) : List DetResult :=
  let templateName := metadata.templateName.getD ""
  let locale := metadata.locale.getD ""
  (if strTrim templateName = "" then
    [{ testName := "template_meta", status := "fail", details := "Missing template name" }]
  else
    [{ testName := "template_meta", status := "pass",
       details := "Template name present: " ++ templateName }]) ++
  (if strTrim locale = "" then
    [{ testName := "template_meta", status := "fail", details := "Missing locale" }]
  else
    [{ testName := "template_meta", status := "pass",
       details := "Locale present: " ++ locale }])

/-- `check_width`: single result, fail when neither `width=` nor `style=`
occurs in the raw markup. -/
def check_width (doc : EmailDoc) : List DetResult :=
  if !containsStr doc.raw "width=" && !containsStr doc.raw "style=" then
    [{ testName := "width", status := "fail",
       details := "No width attributes found in email" }]
  else
    [{ testName := "width", status := "pass", details := "Width attributes found" }]

/-- `check_background_color`: single result, fail when neither
`background-color:` nor `bgcolor=` occurs in the raw markup. -/
def check_background_color (doc : EmailDoc) : List DetResult :=
  if !containsStr doc.raw "background-color:" && !containsStr doc.raw "bgcolor=" then
    [{ testName := "background_color", status := "fail",
       details := "No background color declarations found" }]
  else
    [{ testName := "background_color", status := "pass",
       details := "Background color declarations found" }]

/-- `check_image_dimensions`: one result per image, failing when both the
`width` and the `height` attribute are missing or empty, plus a pass
placeholder when there are no images. -/
def check_image_dimensions (doc : EmailDoc) : List DetResult :=
  let issues := doc.images.map fun img =>
    if img.width.getD "" = "" && img.height.getD "" = "" then
      { testName := "image_dimensions", status := "fail",
        details := "Image missing dimensions" }
    else
      { testName := "image_dimensions", status := "pass",
        details := "Image dimensions present" }
  if issues = [] then
    [{ testName := "image_dimensions", status := "pass",
       details := "No images found, dimension check passed" }]
  else issues

/-- The predicate of `check_long_copy`: a non-blank text node whose
trimmed length exceeds 200 characters. -/
def longCopyFail (t : String) : Bool := strTrim t ≠ "" && (strTrim t).length > 200

/-- `check_long_copy`: one fail per long text node, or a single pass
placeholder when none qualifies. -/
def check_long_copy (doc : EmailDoc) : List DetResult :=
  let issues := (doc.textNodes.filter longCopyFail).map fun t =>
    { testName := "long_copy", status := "fail",
      details := "Long text line found (" ++ toString (strTrim t).length ++ " chars)" }
  if issues = [] then
    [{ testName := "long_copy", status := "pass",
       details := "No excessively long text lines found" }]
  else issues

/-- `run_all_deterministic_tests`: concatenation of the nine checks. -/
def run_all_deterministic_tests (doc : EmailDoc) (metadata : Metadata) : List DetResult :=
  check_alt_text doc ++ check_links doc ++ check_subject_line metadata ++
  check_preheader metadata ++ check_template_meta metadata ++ check_width doc ++
  check_background_color doc ++ check_image_dimensions doc ++ check_long_copy doc

/-! ## Common agent output -/

/-- The dictionary returned by each heuristic agent's `analyze`:
`{"agent": …, "email_id": …, "issues": […], "summary": …}`. -/
structure AgentOut where
  agent : String
  emailId : String
  issues : List Issue
  summary : String
deriving DecidableEq

/-- A single-quote character (code point 39), used to rebuild the quoted
fragments of the source's message strings. -/
def squote : String := String.mk [Char.ofNat 39]

/-! ## Tone agent (`agents/tone_agent.py`) -/

/-- The fixed spam keyword list of `ToneAgent`. -/
def spamKeywords : List String :=
  ["urgent", "act now", "limited time", "free", "guarantee",
   "no obligation", "click here", "buy now", "instant", "miracle"]

/-- The fixed complex-connector list of `ToneAgent`. -/
def complexSentenceIndicators : List String :=
  ["however", "nevertheless", "moreover", "furthermore", "consequently",
   "therefore", "thus", "hence", "accordingly", "notwithstanding"]

/-- Python `str.isupper`: at least one cased character and no lowercase
cased character. -/
def pyIsUpper (s : String) : Bool :=
  s.data.any (fun c => chIsUpper c || chIsLower c) && !(s.data.any (fun c => chIsLower c))

/-- `ToneAgent._check_subject_for_spam`: spam keywords (case-insensitive
containment), more than two exclamation marks, all-caps subject longer
than 10 characters. -/
def check_subject_for_spam (subject : String) : List Issue :=
  let foundSpamKeywords := spamKeywords.filter fun kw => containsStr (strLower subject) kw
  (if foundSpamKeywords ≠ [] then
    [mkIssue "spam_indicators"
      ("Spam keywords detected in subject: " ++ String.intercalate ", " foundSpamKeywords)
      "high"]
  else []) ++
  (if subject.data.count (Char.ofNat 33) > 2 then
    [mkIssue "spam_indicators" "Too many exclamation marks in subject" "medium"]
  else []) ++
  (if pyIsUpper subject && subject.length > 10 then
    [mkIssue "spam_indicators" "Subject line is all caps" "medium"]
  else [])

/-- The artifacts that `ToneAgent` derives from the extracted text by
regular expressions, supplied here as data: the sentence split of the
text, the total count of passive-voice proxy matches, and the list of
immediately-repeated words. -/
structure ToneDoc where
  sentences : List String := []
  passiveCount : Nat := 0
  repeatedWords : List String := []
deriving DecidableEq

/-- `ToneAgent._check_complex_sentences`: one low issue per sentence
containing more than two complex connectors. -/
def check_complex_sentences (sentences : List String) : List Issue :=
  sentences.filterMap fun sentence =>
    if (complexSentenceIndicators.filter fun ind =>
          containsStr (strLower sentence) ind).length > 2 then
      some (mkIssue "complex_sentences"
        ("Sentence contains too many complex connectors: " ++ sentence.take 50 ++ "...")
        "low")
    else none

/-- `ToneAgent._check_clarity`: one low issue when the passive-voice proxy
count exceeds 10. -/
def check_clarity (passiveCount : Nat) : List Issue :=
  if passiveCount > 10 then
    [mkIssue "clarity" "Text contains excessive passive voice constructions" "low"]
  else []

/-- `ToneAgent._check_grammar`: one low issue when repeated words were
found.  The source joins `set(repeated_words)`, whose iteration order is
unspecified; it is modelled as first-occurrence deduplication. -/
def check_grammar (repeatedWords : List String) : List Issue :=
  if repeatedWords ≠ [] then
    [mkIssue "grammar"
      ("Repeated words found: " ++ String.intercalate ", " repeatedWords.dedup) "low"]
  else []

/-- `ToneAgent.analyze`: subject spam issues, then complex-sentence,
clarity and grammar issues over the extracted text. -/
def tone_analyze (emailId : String) (text : ToneDoc) (metadata : Metadata) : AgentOut :=
  let issues :=
    check_subject_for_spam (metadata.subject.getD "") ++
    check_complex_sentences text.sentences ++
    check_clarity text.passiveCount ++
    check_grammar text.repeatedWords
  { agent := "tone", emailId := emailId, issues := issues,
    summary := "Found " ++ toString issues.length ++ " tone/clarity issues" }

/-! ## Compliance agent (`agents/compliance_agent.py`) -/

/-- The brand profile, with the hardcoded fallback values as defaults. -/
structure BrandRules where
  fontFamily : String := "Arial"
  ctaColor : String := "#0085FF"
  headerLogo : String := "brandlogo.png"
  topPadding : String := "24px"
  bottomPadding : String := "24px"
deriving DecidableEq

/-- `_check_font_compliance`: medium issue when the literal
`font-family: <brand font>` does not occur in the markup. -/
def check_font_compliance (brand : BrandRules) (htmlContent : String) : List Issue :=
  if !containsStr htmlContent ("font-family: " ++ brand.fontFamily) then
    [mkIssue "font_compliance"
      ("Font does not match brand guidelines. Expected: " ++ brand.fontFamily) "medium"]
  else []

/-- `_check_cta_color_compliance`: medium issue when the brand CTA color
literal does not occur in the markup. -/
def check_cta_color_compliance (brand : BrandRules) (htmlContent : String) : List Issue :=
  if !containsStr htmlContent brand.ctaColor then
    [mkIssue "cta_color_compliance"
      ("CTA button color does not match brand guidelines. Expected: " ++ brand.ctaColor)
      "medium"]
  else []

/-- `_check_spacing_compliance`: low issue each for a missing top-padding
and bottom-padding literal. -/
def check_spacing_compliance (brand : BrandRules) (htmlContent : String) : List Issue :=
  (if !containsStr htmlContent brand.topPadding then
    [mkIssue "spacing_compliance"
      ("Top padding does not match brand guidelines. Expected: " ++ brand.topPadding)
      "low"]
  else []) ++
  (if !containsStr htmlContent brand.bottomPadding then
    [mkIssue "spacing_compliance"
      ("Bottom padding does not match brand guidelines. Expected: " ++ brand.bottomPadding)
      "low"]
  else [])

/-- `_check_logo_placement`: medium issue when the brand logo literal does
not occur in the markup. -/
def check_logo_placement (brand : BrandRules) (htmlContent : String) : List Issue :=
  if !containsStr htmlContent brand.headerLogo then
    [mkIssue "logo_placement"
      ("Brand logo not found. Expected: " ++ brand.headerLogo) "medium"]
  else []

/-- `_check_header_footer_consistency`: low issue each for a missing
header and footer marker in the lowercased markup. -/
def check_header_footer_consistency (htmlContent : String) : List Issue :=
  (if !containsStr (strLower htmlContent) "<header"
      && !containsStr (strLower htmlContent) ("<div class=" ++ squote ++ "header" ++ squote) then
    [mkIssue "header_consistency" "Header section not found or inconsistent" "low"]
  else []) ++
  (if !containsStr (strLower htmlContent) "<footer"
      && !containsStr (strLower htmlContent) ("<div class=" ++ squote ++ "footer" ++ squote) then
    [mkIssue "footer_consistency" "Footer section not found or inconsistent" "low"]
  else [])

/-- `ComplianceAgent.analyze`: the five brand checks in order. -/
def compliance_analyze (brand : BrandRules) (emailId : String) (htmlContent : String)
    (metadata : Metadata) : AgentOut :=
  let issues :=
    check_font_compliance brand htmlContent ++
    check_cta_color_compliance brand htmlContent ++
    check_spacing_compliance brand htmlContent ++
    check_logo_placement brand htmlContent ++
    check_header_footer_consistency htmlContent
  { agent := "compliance", emailId := emailId, issues := issues,
    summary := "Found " ++ toString issues.length ++ " compliance issues" }

/-! ## Accessibility agent (`agents/accessibility_agent.py`) -/

/-- `_check_alt_text_quality`: per image, high for missing ALT text,
medium for a generic placeholder, low for ALT text over 125 characters. -/
def check_alt_text_quality (images : List Img) : List Issue :=
  images.flatMap fun img =>
    let altText := strTrim (img.alt.getD "")
    if altText = "" then
      [mkIssue "alt_text_quality" "Image missing descriptive ALT text" "high"]
    else if (strLower altText) = "image" || (strLower altText) = "photo"
        || (strLower altText) = "picture" || (strLower altText) = "graphic" then
      [mkIssue "alt_text_quality"
        ("Image has non-descriptive ALT text: " ++ squote ++ altText ++ squote) "medium"]
    else if altText.length > 125 then
      [mkIssue "alt_text_quality"
        ("ALT text is too long (" ++ toString altText.length ++ " chars): "
          ++ squote ++ altText.take 50 ++ "..." ++ squote) "low"]
    else []

/-- `_check_semantic_html`: heading-structure issues then list-structure
issues. -/
def check_semantic_html (doc : EmailDoc) : List Issue :=
  (if doc.headingTags = [] then
    [mkIssue "semantic_html" "No heading elements found" "medium"]
  else if doc.headingTags.count "h1" = 0 then
    [mkIssue "semantic_html" "Missing main heading (h1)" "medium"]
  else if doc.headingTags.count "h1" > 1 then
    [mkIssue "semantic_html" "Multiple h1 headings found" "low"]
  else []) ++
  (if doc.hasListItems && !doc.hasListContainer then
    [mkIssue "semantic_html" "List items found without proper list container" "low"]
  else [])

/-- `_check_link_text_clarity`: per anchor, high for empty text, medium
for generic text, low for text over 80 characters. -/
def check_link_text_clarity (anchors : List Anchor) : List Issue :=
  anchors.flatMap fun link =>
    let linkText := link.text
    if linkText = "" then
      [mkIssue "link_text_clarity" "Link with no text content" "high"]
    else if (strLower linkText) = "click here" || (strLower linkText) = "read more"
        || (strLower linkText) = "link" || (strLower linkText) = "here" then
      [mkIssue "link_text_clarity"
        ("Non-descriptive link text: " ++ squote ++ linkText ++ squote) "medium"]
    else if linkText.length > 80 then
      [mkIssue "link_text_clarity"
        ("Link text is too long (" ++ toString linkText.length ++ " chars): "
          ++ squote ++ linkText.take 50 ++ "..." ++ squote) "low"]
    else []

/-- `_check_color_contrast`: one low nudge when inline text-color styling
exists without background-color styling. -/
def check_color_contrast (doc : EmailDoc) : List Issue :=
  if doc.hasColorDecl && !doc.hasBgDecl then
    [mkIssue "color_contrast"
      "Text color specified without background color - contrast cannot be verified" "low"]
  else []

/-- `AccessibilityAgent.analyze`: the four accessibility checks in order. -/
def accessibility_analyze (emailId : String) (doc : EmailDoc)
    (metadata : Metadata) : AgentOut :=
  let issues :=
    check_alt_text_quality doc.images ++
    check_semantic_html doc ++
    check_link_text_clarity doc.anchors ++
    check_color_contrast doc
  { agent := "accessibility", emailId := emailId, issues := issues,
    summary := "Found " ++ toString issues.length ++ " accessibility issues" }

/-! ## Risk scoring agent (`agents/risk_scoring_agent.py`)

Scores are Python floats, modelled as rationals. -/

/-- The fixed severity weight table `{critical:10, high:5, medium:3,
low:1}`; `none` for any other key. -/
def severityWeights : String → Option ℚ := fun s =>
  if s = "critical" then some 10
  else if s = "high" then some 5
  else if s = "medium" then some 3
  else if s = "low" then some 1
  else none

/-- The rule weight registry (`self.rule_weights`): a partial map from
rule/test names to weights, loaded from the database or from the default
table. -/
abbrev RuleWeights := String → Option ℚ

/-- The hardcoded default rule weight table returned when the database is
unavailable. -/
def defaultRuleWeights : RuleWeights := fun s =>
  if s = "ALT Text Required" then some 10
  else if s = "Link Validation" then some 20
  else if s = "CTA Branding Color Check" then some 15
  else if s = "Template Width Check" then some 10
  else if s = "Font Size Check" then some 10
  else if s = "Copy Tone Check" then some 10
  else if s = "Accessibility Color Contrast" then some 10
  else if s = "Spam Word Check" then some 10
  else if s = "Decorative Image ALT Skip" then some 5
  else none

/-- `issue.get("severity", "medium")`. -/
def issueSeverity (i : Issue) : String := issueGet i "severity" "medium"

/-- `issue.get("rule", "")`. -/
def issueRule (i : Issue) : String := issueGet i "rule" ""

/-- The deterministic loop of `calculate_risk`: the accumulator pair
`(deterministic_score, deterministic_max)`.  The score adds
`(weight/100) * severity_weights.get("high", 5)` for failing tests only;
the max adds `(weight/100) * severity_weights["high"]` for every test
(the `"high"` key is present in the table, so the direct indexing is
`getD 0` of a `some`). -/
def deterministicStep (rw : RuleWeights) (acc : ℚ × ℚ) (test : DetResult) : ℚ × ℚ :=
  ((if test.status = "fail" then
      acc.1 + (rw test.testName).getD 5 / 100 * (severityWeights "high").getD 5
    else acc.1),
   acc.2 + (rw test.testName).getD 5 / 100 * (severityWeights "high").getD 0)

/-- The deterministic loop of `calculate_risk`, folded over the tests. -/
def deterministicFold (rw : RuleWeights) (tests : List DetResult) : ℚ × ℚ :=
  tests.foldl (deterministicStep rw) (0, 0)

/-- The compliance/tone/accessibility loop of `calculate_risk`: the
accumulator pair `(<category>_score, <category>_max)` with default rule
weight 10; the max always adds the `critical` severity weight. -/
def categoryStep (rw : RuleWeights) (acc : ℚ × ℚ) (issue : Issue) : ℚ × ℚ :=
  (acc.1 + (rw (issueRule issue)).getD 10 / 100 *
      (severityWeights (issueSeverity issue)).getD 3,
   acc.2 + (rw (issueRule issue)).getD 10 / 100 *
      (severityWeights "critical").getD 0)

/-- The compliance/tone/accessibility loop of `calculate_risk`, folded
over the issues. -/
def categoryFold (rw : RuleWeights) (issues : List Issue) : ℚ × ℚ :=
  issues.foldl (categoryStep rw) (0, 0)

/-- `(raw_score / max(raw_max, 1)) * ceiling if raw_max > 0 else 0`. -/
def weightedContribution (rawScore rawMax ceiling : ℚ) : ℚ :=
  if rawMax > 0 then rawScore / max rawMax 1 * ceiling else 0

/-- `deterministic_weighted` (ceiling 40). -/
def deterministicContribution (rw : RuleWeights) (tests : List DetResult) : ℚ :=
  weightedContribution (deterministicFold rw tests).1 (deterministicFold rw tests).2 40

/-- `compliance_weighted` (ceiling 25). -/
def complianceContribution (rw : RuleWeights) (issues : List Issue) : ℚ :=
  weightedContribution (categoryFold rw issues).1 (categoryFold rw issues).2 25

/-- `tone_weighted` (ceiling 15). -/
def toneContribution (rw : RuleWeights) (issues : List Issue) : ℚ :=
  weightedContribution (categoryFold rw issues).1 (categoryFold rw issues).2 15

/-- `accessibility_weighted` (ceiling 20). -/
def accessibilityContribution (rw : RuleWeights) (issues : List Issue) : ℚ :=
  weightedContribution (categoryFold rw issues).1 (categoryFold rw issues).2 20

/-- `normalized_score = min(100, max(0, final_score))`. -/
def normalizedRiskScore (rw : RuleWeights) (dets : List DetResult)
    (comp ton acc : List Issue) : ℚ :=
  min 100 (max 0 (deterministicContribution rw dets + complianceContribution rw comp +
    toneContribution rw ton + accessibilityContribution rw acc))

/-- Round half to even (the rounding of Python `round`). -/
def roundHalfEven (q : ℚ) : ℤ :=
  if q - ⌊q⌋ < 1 / 2 then ⌊q⌋
  else if 1 / 2 < q - ⌊q⌋ then ⌊q⌋ + 1
  else if ⌊q⌋ % 2 = 0 then ⌊q⌋ else ⌊q⌋ + 1

/-- Python `round(x, 2)`: round half to even at two decimal places. -/
def round2 (q : ℚ) : ℚ := (roundHalfEven (q * 100) : ℚ) / 100

/-- `_determine_risk_level` with the fixed thresholds 80 and 50. -/
def determine_risk_level (score : ℚ) : String :=
  if score ≥ 80 then "high"
  else if score ≥ 50 then "medium"
  else "low"

/-- One category entry of the `breakdown` mapping. -/
structure CategoryBreakdown where
  score : ℚ
  ceiling : ℚ
  rawScore : ℚ
  rawMax : ℚ
deriving DecidableEq

/-- The `breakdown` mapping of the risk result. -/
structure Breakdown where
  deterministic : CategoryBreakdown
  compliance : CategoryBreakdown
  tone : CategoryBreakdown
  accessibility : CategoryBreakdown
deriving DecidableEq

/-- The risk result (`issue_counts` and `reason`, which no claim touches,
are omitted). -/
structure RiskOut where
  score : ℚ
  riskLevel : String
  breakdown : Breakdown
deriving DecidableEq

/-- `RiskScoringAgent.calculate_risk`. -/
def calculate_risk (rw : RuleWeights) (dets : List DetResult)
    (comp ton acc : List Issue) : RiskOut :=
  let d := deterministicFold rw dets
  let c := categoryFold rw comp
  let t := categoryFold rw ton
  let a := categoryFold rw acc
  let normalized := normalizedRiskScore rw dets comp ton acc
  { score := round2 normalized,
    riskLevel := determine_risk_level normalized,
    breakdown :=
      { deterministic :=
          ⟨round2 (deterministicContribution rw dets), 40, round2 d.1, round2 d.2⟩,
        compliance :=
          ⟨round2 (complianceContribution rw comp), 25, round2 c.1, round2 c.2⟩,
        tone := ⟨round2 (toneContribution rw ton), 15, round2 t.1, round2 t.2⟩,
        accessibility :=
          ⟨round2 (accessibilityContribution rw acc), 20, round2 a.1, round2 a.2⟩ } }

/-! ## Supervisor agent (`agents/supervisor_agent.py`) -/

/-- The count of deterministic results with status `"fail"`. -/
def countDeterministicFailures (dets : List DetResult) : ℕ :=
  (dets.filter fun test => test.status = "fail").length

/-- `any(issue.get("severity") == "critical" …)` over the compliance
issues (`.get` without default is `none` for a missing key). -/
def criticalCompliancePresent (complianceIssues : List Issue) : Bool :=
  complianceIssues.any fun issue => issue.lookup "severity" == some "critical"

/-- `SupervisorAgent._determine_overall_status`.  The tone and
accessibility results are parameters of the source method but unused. -/
def determine_overall_status (dets : List DetResult) (complianceIssues : List Issue)
    (tonIssues accIssues : List Issue) (riskLevel : String) : String :=
  if countDeterministicFailures dets > 3 || criticalCompliancePresent complianceIssues
      || riskLevel = "high" then "fail"
  else if countDeterministicFailures dets > 0 || riskLevel = "medium" then "needs_review"
  else "pass"

/-- One entry of the `top_issues` view:
`{type, test_name, details, severity}`. -/
structure TopIssue where
  type : String
  testName : String
  details : String
  severity : String
deriving DecidableEq

/-- `severity_order.get(severity, 0)` with the table
`{critical:4, high:3, medium:2, low:1}`. -/
def severityOrder (s : String) : ℕ :=
  if s = "critical" then 4
  else if s = "high" then 3
  else if s = "medium" then 2
  else if s = "low" then 1
  else 0

/-- The unsorted `top_issues` accumulation: deterministic failures (always
severity high), then compliance, tone and accessibility issues. -/
def allTopIssues (dets : List DetResult) (comp ton acc : List Issue) : List TopIssue :=
  (dets.filter fun test => test.status = "fail").map
    (fun test => ⟨"deterministic", test.testName, test.details, "high"⟩) ++
  comp.map (fun issue =>
    ⟨"compliance", issueRule issue, issueGet issue "description" "", issueSeverity issue⟩) ++
  ton.map (fun issue =>
    ⟨"tone", issueRule issue, issueGet issue "description" "", issueSeverity issue⟩) ++
  acc.map (fun issue =>
    ⟨"accessibility", issueRule issue, issueGet issue "description" "", issueSeverity issue⟩)

/-- The comparison of `top_issues.sort(key=severity rank, reverse=True)`:
descending severity rank. -/
def topIssueLE (a b : TopIssue) : Bool :=
  decide (severityOrder b.severity ≤ severityOrder a.severity)

/-- The stable descending sort of the top issues (`list.sort` is stable;
`mergeSort` is the stable sort for the same order). -/
def sortedTopIssues (dets : List DetResult) (comp ton acc : List Issue) : List TopIssue :=
  (allTopIssues dets comp ton acc).mergeSort topIssueLE

/-- `SupervisorAgent._extract_top_issues`: sort descending by severity
rank, keep the first 10. -/
def extract_top_issues (dets : List DetResult) (comp ton acc : List Issue) : List TopIssue :=
  (sortedTopIssues dets comp ton acc).take 10

/-! ## Fix suggestion agent (`agents/fix_suggestion_agent.py`)

A Python format string is a list of chunks: literals and `{field}`
references; `template.format(**mapping)` fails (raises `KeyError`) when a
referenced field is absent from the mapping, modelled by `Option`. -/

/-- One chunk of a format template. -/
inductive Chunk where
  | lit (s : String)
  | field (k : String)
deriving DecidableEq

/-- A format template. -/
abbrev Template := List Chunk

/-- The fixed `fix_templates` table. -/
def fixTemplates : List (String × Template) :=
  [("alt_text", [Chunk.lit "Add descriptive ALT text to image: ", Chunk.field "element"]),
   ("links", [Chunk.lit "Fix malformed link: ", Chunk.field "url"]),
   ("subject_line", [Chunk.lit "Add a compelling subject line"]),
   ("preheader", [Chunk.lit "Add a preheader text"]),
   ("template_meta",
     [Chunk.lit "Add missing template metadata: ", Chunk.field "missing_field"]),
   ("width", [Chunk.lit "Specify width attributes for email elements"]),
   ("background_color", [Chunk.lit "Define background colors for all sections"]),
   ("image_dimensions",
     [Chunk.lit "Add width and height attributes to image: ", Chunk.field "element"]),
   ("long_copy", [Chunk.lit "Break up long text block into shorter paragraphs"]),
   ("font_compliance",
     [Chunk.lit "Update font family to brand standard: ", Chunk.field "expected_font"]),
   ("cta_color_compliance",
     [Chunk.lit "Update CTA button color to brand standard: ", Chunk.field "expected_color"]),
   ("spacing_compliance",
     [Chunk.lit "Adjust spacing to brand guidelines: ", Chunk.field "spacing_rule"]),
   ("logo_placement",
     [Chunk.lit "Add brand logo to header: ", Chunk.field "expected_logo"]),
   ("header_consistency", [Chunk.lit "Ensure consistent header structure"]),
   ("footer_consistency", [Chunk.lit "Ensure consistent footer structure"]),
   ("spam_indicators",
     [Chunk.lit "Remove or rephrase spammy language: ", Chunk.field "spam_text"]),
   ("complex_sentences", [Chunk.lit "Simplify complex sentence structure"]),
   ("clarity", [Chunk.lit "Rewrite passive voice to active voice"]),
   ("grammar", [Chunk.lit "Fix grammar issue: ", Chunk.field "grammar_issue"]),
   ("alt_text_quality",
     [Chunk.lit "Improve ALT text descriptiveness: ", Chunk.field "current_text"]),
   ("semantic_html", [Chunk.lit "Add proper heading structure"]),
   ("link_text_clarity",
     [Chunk.lit "Make link text more descriptive: ", Chunk.field "current_text"]),
   ("color_contrast",
     [Chunk.lit "Ensure sufficient color contrast for readability"])]

/-- `template.format(**m)`: `none` when a referenced field is absent. -/
def renderTemplate (m : String → Option String) : Template → Option String
  | [] => some ""
  | Chunk.lit s :: rest => (renderTemplate m rest).map (fun r => s ++ r)
  | Chunk.field k :: rest =>
    match m k with
    | none => none
    | some v => (renderTemplate m rest).map (fun r => v ++ r)

/-- The `setdefault` table shared by all four fix generators. -/
def fixDefaults : List (String × String) :=
  [("element", "element"), ("url", "link"), ("missing_field", "field"),
   ("expected_font", "Arial"), ("expected_color", "#0085FF"),
   ("spacing_rule", "padding"), ("expected_logo", "logo"), ("spam_text", "text"),
   ("grammar_issue", "issue"), ("current_text", "text")]

/-- The issue generators additionally `setdefault("description", "issue")`. -/
def issueFixDefaults : List (String × String) :=
  fixDefaults ++ [("description", "issue")]

/-- Lookup in the safe copy built by the `setdefault` calls: the original
fields win, the defaults fill the gaps. -/
def safeGet (fields defaults : List (String × String)) (k : String) : Option String :=
  match fields.lookup k with
  | some v => some v
  | none => defaults.lookup k

/-- The field references of a template. -/
def templateKeys (tpl : Template) : List String :=
  tpl.filterMap fun c =>
    match c with
    | Chunk.lit _ => none
    | Chunk.field k => some k

/-- The generic deterministic fallback template `"Fix {test_name} issue"`. -/
def detFallbackTemplate : Template :=
  [Chunk.lit "Fix ", Chunk.field "test_name", Chunk.lit " issue"]

/-- `"Fix compliance issue: {description}"`. -/
def complianceFallbackTemplate : Template :=
  [Chunk.lit "Fix compliance issue: ", Chunk.field "description"]

/-- `"Improve tone/clarity: {description}"`. -/
def toneFallbackTemplate : Template :=
  [Chunk.lit "Improve tone/clarity: ", Chunk.field "description"]

/-- `"Improve accessibility: {description}"`. -/
def accessibilityFallbackTemplate : Template :=
  [Chunk.lit "Improve accessibility: ", Chunk.field "description"]

/-- One fix suggestion `{type, issue, description, suggestion, priority}`. -/
structure Fix where
  type : String
  issueName : String
  description : String
  suggestion : String
  priority : String
deriving DecidableEq

/-- `_generate_deterministic_fix`. -/
def generate_deterministic_fix (test : DetResult) : Option Fix :=
  let template := (fixTemplates.lookup test.testName).getD detFallbackTemplate
  (renderTemplate (safeGet test.fields fixDefaults) template).map fun s =>
    { type := "deterministic", issueName := test.testName, description := test.details,
      suggestion := s, priority := "high" }

/-- The shared body of `_generate_compliance_fix` / `_generate_tone_fix` /
`_generate_accessibility_fix`, which differ only in the category name, the
default rule name and the fallback template. -/
def generate_issue_fix (category defaultRule : String) (fallback : Template)
    (issue : Issue) : Option Fix :=
  let rule := issueGet issue "rule" defaultRule
  let template := (fixTemplates.lookup rule).getD fallback
  (renderTemplate (safeGet issue issueFixDefaults) template).map fun s =>
    { type := category, issueName := rule,
      description := issueGet issue "description" "",
      suggestion := s, priority := issueGet issue "severity" "medium" }

/-- `_generate_compliance_fix`. -/
def generate_compliance_fix : Issue → Option Fix :=
  generate_issue_fix "compliance" "compliance" complianceFallbackTemplate

/-- `_generate_tone_fix`. -/
def generate_tone_fix : Issue → Option Fix :=
  generate_issue_fix "tone" "tone" toneFallbackTemplate

/-- `_generate_accessibility_fix`. -/
def generate_accessibility_fix : Issue → Option Fix :=
  generate_issue_fix "accessibility" "accessibility" accessibilityFallbackTemplate

/-- Collect a list of options, propagating a failure (a raised
`KeyError`) as `none`. -/
def allSome {α : Type} : List (Option α) → Option (List α)
  | [] => some []
  | none :: _ => none
  | some a :: rest => (allSome rest).map (fun l => a :: l)

/-- `priority_order.get(priority, 3)` with
`{critical:1, high:2, medium:3, low:4}`. -/
def priorityOrder (s : String) : ℕ :=
  if s = "critical" then 1
  else if s = "high" then 2
  else if s = "medium" then 3
  else if s = "low" then 4
  else 3

/-- The comparison of `_prioritize_fixes`: ascending priority rank. -/
def fixLE (a b : Fix) : Bool := decide (priorityOrder a.priority ≤ priorityOrder b.priority)

/-- `_prioritize_fixes`: stable ascending sort by priority rank. -/
def prioritize_fixes (fixes : List Fix) : List Fix := fixes.mergeSort fixLE

/-- The fix list accumulated by `generate_fixes` before sorting:
deterministic failures, then compliance, tone and accessibility issues
(each generated fix dictionary is non-empty, hence truthy, so every
generated fix is appended). -/
def unsortedFixes (dets : List DetResult) (comp ton acc : List Issue) :
    Option (List Fix) :=
  allSome ((dets.filter fun test => test.status = "fail").map generate_deterministic_fix
    ++ comp.map generate_compliance_fix ++ ton.map generate_tone_fix
    ++ acc.map generate_accessibility_fix)

/-- `FixSuggestionAgent.generate_fixes`.  The risk-result parameter is
unused by the source body. -/
def generate_fixes (dets : List DetResult) (comp ton acc : List Issue)
    (riskResults : RiskOut) : Option (List Fix) :=
  (unsortedFixes dets comp ton acc).map prioritize_fixes

/-! ## General helper lemmas -/

/-- Membership in a conditional singleton list. -/
lemma mem_ite_singleton {α} {p : Prop} [Decidable p] {a b : α}
    (h : a ∈ (if p then [b] else [])) : a = b := by
  split at h <;> simp_all

/-- A stable sort does not move elements whose keys are pairwise
equivalent: filtering an equivalence class out of the sorted list gives
the same list as filtering it out of the input. -/
lemma mergeSort_filter_eq {α} (le : α → α → Bool)
    (htrans : ∀ a b c, le a b → le b c → le a c)
    (htotal : ∀ a b, le a b || le b a)
    (l : List α) (p : α → Bool) (hp : ∀ a b, p a → p b → le a b) :
    (l.mergeSort le).filter p = l.filter p := by
  have h2 : (l.filter p).Pairwise (fun a b => le a b = true) :=
    List.pairwise_of_forall_mem_list fun a ha b hb =>
      hp a b (List.of_mem_filter ha) (List.of_mem_filter hb)
  have h3 : (l.filter p).Sublist (l.mergeSort le) :=
    List.sublist_mergeSort htrans htotal h2 (List.filter_sublist l)
  have h4 : (l.filter p).filter p = l.filter p :=
    List.filter_eq_self.mpr fun a ha => List.mem_filter.mp ha |>.2
  have h5 : (l.filter p).Sublist ((l.mergeSort le).filter p) := by
    have := h3.filter p
    rwa [h4] at this
  have h6 : ((l.mergeSort le).filter p).Perm (l.filter p) :=
    (List.mergeSort_perm l le).filter p
  exact (h5.eq_of_length h6.length_eq.symm).symm

/-- Collecting a list of options in which every entry is `some` succeeds
and preserves the length. -/
lemma allSome_eq_some {α : Type} : ∀ {l : List (Option α)}, (∀ x ∈ l, x.isSome) →
    ∃ ys, allSome l = some ys ∧ ys.length = l.length
  | [], _ => ⟨[], rfl, rfl⟩
  | none :: t, h => by simp at h
  | some a :: t, h => by
    obtain ⟨ys, hys, hlen⟩ := allSome_eq_some (fun x hx => h x (List.mem_cons_of_mem _ hx))
    exact ⟨a :: ys, by simp [allSome, hys], by simp [hlen]⟩

/-! ## Claim C2: the overall-status decision -/

/-- C2: for every deterministic result list, compliance/tone/accessibility
results and risk result, `_determine_overall_status` returns `"fail"` iff
more than 3 deterministic failures, or a critical compliance issue, or
risk level `"high"`; otherwise `"needs_review"` iff at least one
deterministic failure or risk level `"medium"`; otherwise `"pass"`. -/
theorem C2_overall_status_decision (dets : List DetResult)
    (comp ton acc : List Issue) (riskLevel : String) :
    (determine_overall_status dets comp ton acc riskLevel = "fail" ↔
      (3 < countDeterministicFailures dets ∨ criticalCompliancePresent comp = true ∨
        riskLevel = "high")) ∧
    (determine_overall_status dets comp ton acc riskLevel = "needs_review" ↔
      (¬(3 < countDeterministicFailures dets ∨ criticalCompliancePresent comp = true ∨
          riskLevel = "high") ∧
        (0 < countDeterministicFailures dets ∨ riskLevel = "medium"))) ∧
    (determine_overall_status dets comp ton acc riskLevel = "pass" ↔
      (¬(3 < countDeterministicFailures dets ∨ criticalCompliancePresent comp = true ∨
          riskLevel = "high") ∧
        ¬(0 < countDeterministicFailures dets ∨ riskLevel = "medium"))) := by
  unfold determine_overall_status
  split_ifs with h1 h2
  · simp only [Bool.or_eq_true, decide_eq_true_eq] at h1
    refine ⟨iff_of_true rfl (by tauto), iff_of_false (by decide) ?_, iff_of_false (by decide) ?_⟩
    · rintro ⟨hn, -⟩
      exact hn (by tauto)
    · rintro ⟨hn, -⟩
      exact hn (by tauto)
  · simp only [Bool.or_eq_true, decide_eq_true_eq, not_or] at h1 h2
    refine ⟨iff_of_false (by decide) ?_, iff_of_true rfl ?_, iff_of_false (by decide) ?_⟩
    · intro hc
      exact absurd hc (by tauto)
    · exact ⟨by tauto, by tauto⟩
    · rintro ⟨-, hn⟩
      exact hn (by tauto)
  · simp only [Bool.or_eq_true, decide_eq_true_eq, not_or] at h1 h2
    refine ⟨iff_of_false (by decide) ?_, iff_of_false (by decide) ?_, iff_of_true rfl ?_⟩
    · intro hc
      exact absurd hc (by tauto)
    · rintro ⟨-, hc⟩
      exact absurd hc (by tauto)
    · exact ⟨by tauto, by tauto⟩

/-! ## Claim C7: deterministic checks never return an empty list -/

/-- C7: each of the nine deterministic check functions returns a non-empty
result list for every input — with an explicit pass placeholder when the
checked subject (images, links, long text) is absent — hence
`run_all_deterministic_tests` never returns an empty list. -/
theorem C7_deterministic_checks_nonempty (doc : EmailDoc) (metadata : Metadata) :
    check_alt_text doc ≠ [] ∧ check_links doc ≠ [] ∧
    check_subject_line metadata ≠ [] ∧ check_preheader metadata ≠ [] ∧
    check_template_meta metadata ≠ [] ∧ check_width doc ≠ [] ∧
    check_background_color doc ≠ [] ∧ check_image_dimensions doc ≠ [] ∧
    check_long_copy doc ≠ [] ∧
    run_all_deterministic_tests doc metadata ≠ [] ∧
    (doc.images = [] → check_alt_text doc =
      [{ testName := "alt_text", status := "pass",
         details := "No images found, ALT text check passed" }]) ∧
    (doc.anchors = [] → check_links doc =
      [{ testName := "links", status := "pass",
         details := "No links found, link check passed" }]) ∧
    (doc.images = [] → check_image_dimensions doc =
      [{ testName := "image_dimensions", status := "pass",
         details := "No images found, dimension check passed" }]) ∧
    (doc.textNodes.filter longCopyFail = [] → check_long_copy doc =
      [{ testName := "long_copy", status := "pass",
         details := "No excessively long text lines found" }]) := by
  have halt : check_alt_text doc ≠ [] := by
    simp only [check_alt_text]
    cases doc.images <;> simp
  have hlinks : check_links doc ≠ [] := by
    simp only [check_links]
    cases doc.anchors <;> simp
  have hsubj : check_subject_line metadata ≠ [] := by
    simp only [check_subject_line]
    split <;> simp
  have hpre : check_preheader metadata ≠ [] := by
    simp only [check_preheader]
    split <;> simp
  have htm : check_template_meta metadata ≠ [] := by
    simp only [check_template_meta]
    split <;> split <;> simp
  have hw : check_width doc ≠ [] := by
    simp only [check_width]
    split <;> simp
  have hbg : check_background_color doc ≠ [] := by
    simp only [check_background_color]
    split <;> simp
  have hdim : check_image_dimensions doc ≠ [] := by
    simp only [check_image_dimensions]
    cases doc.images <;> simp
  have hlc : check_long_copy doc ≠ [] := by
    simp only [check_long_copy]
    cases h : doc.textNodes.filter longCopyFail <;> simp [h]
  refine ⟨halt, hlinks, hsubj, hpre, htm, hw, hbg, hdim, hlc, ?_, ?_, ?_, ?_, ?_⟩
  · unfold run_all_deterministic_tests
    intro h
    rw [List.append_eq_nil] at h
    exact hlc h.2
  · intro h
    simp [check_alt_text, h]
  · intro h
    simp [check_links, h]
  · intro h
    simp [check_image_dimensions, h]
  · intro h
    simp [check_long_copy, h]

/-- Witness for C7 at the empty document and metadata. -/
theorem C7_witness :
    check_alt_text {} =
      [{ testName := "alt_text", status := "pass",
         details := "No images found, ALT text check passed" }] ∧
    run_all_deterministic_tests {} {} ≠ [] :=
  ⟨(C7_deterministic_checks_nonempty {} {}).2.2.2.2.2.2.2.2.2.2.1 rfl,
   (C7_deterministic_checks_nonempty {} {}).2.2.2.2.2.2.2.2.2.1⟩

/-! ## Severity invariants of the heuristic agents -/

/-- The `severity` entry of a freshly built issue dictionary. -/
lemma lookup_severity_mkIssue (r d s : String) :
    (mkIssue r d s).lookup "severity" = some s := by
  simp [mkIssue, List.lookup]

/-- Membership in a conditional list with empty alternative. -/
lemma mem_ite_nil {α} {p : Prop} [Decidable p] {a : α} {l : List α}
    (h : a ∈ (if p then l else [])) : a ∈ l := by
  split at h
  · exact h
  · cases h

/-- Every compliance issue carries severity `"medium"` or `"low"`. -/
lemma compliance_issue_severity (brand : BrandRules) (emailId htmlContent : String)
    (metadata : Metadata) :
    ∀ i ∈ (compliance_analyze brand emailId htmlContent metadata).issues,
      i.lookup "severity" = some "medium" ∨ i.lookup "severity" = some "low" := by
  intro i hi
  simp only [compliance_analyze] at hi
  rcases List.mem_append.mp hi with hi | hi5
  rotate_left
  · simp only [check_header_footer_consistency] at hi5
    rcases List.mem_append.mp hi5 with h | h <;>
      (cases List.mem_singleton.mp (mem_ite_nil h); simp [mkIssue, List.lookup])
  rcases List.mem_append.mp hi with hi | hi4
  rotate_left
  · simp only [check_logo_placement] at hi4
    cases List.mem_singleton.mp (mem_ite_nil hi4)
    simp [mkIssue, List.lookup]
  rcases List.mem_append.mp hi with hi | hi3
  rotate_left
  · simp only [check_spacing_compliance] at hi3
    rcases List.mem_append.mp hi3 with h | h <;>
      (cases List.mem_singleton.mp (mem_ite_nil h); simp [mkIssue, List.lookup])
  rcases List.mem_append.mp hi with hi1 | hi2
  · simp only [check_font_compliance] at hi1
    cases List.mem_singleton.mp (mem_ite_nil hi1)
    simp [mkIssue, List.lookup]
  · simp only [check_cta_color_compliance] at hi2
    cases List.mem_singleton.mp (mem_ite_nil hi2)
    simp [mkIssue, List.lookup]

/-- Every tone issue carries severity `"high"`, `"medium"` or `"low"`. -/
lemma tone_issue_severity (emailId : String) (text : ToneDoc) (metadata : Metadata) :
    ∀ i ∈ (tone_analyze emailId text metadata).issues,
      i.lookup "severity" = some "high" ∨ i.lookup "severity" = some "medium" ∨
        i.lookup "severity" = some "low" := by
  intro i hi
  simp only [tone_analyze] at hi
  rcases List.mem_append.mp hi with hi | hi4
  rotate_left
  · simp only [check_grammar] at hi4
    cases List.mem_singleton.mp (mem_ite_nil hi4)
    simp [mkIssue, List.lookup]
  rcases List.mem_append.mp hi with hi | hi3
  rotate_left
  · simp only [check_clarity] at hi3
    cases List.mem_singleton.mp (mem_ite_nil hi3)
    simp [mkIssue, List.lookup]
  rcases List.mem_append.mp hi with hi1 | hi2
  · simp only [check_subject_for_spam] at hi1
    rcases List.mem_append.mp hi1 with h12 | h
    rotate_left
    · cases List.mem_singleton.mp (mem_ite_nil h)
      simp [mkIssue, List.lookup]
    rcases List.mem_append.mp h12 with h | h <;>
      (cases List.mem_singleton.mp (mem_ite_nil h); simp [mkIssue, List.lookup])
  · simp only [check_complex_sentences] at hi2
    obtain ⟨s, -, hs⟩ := List.mem_filterMap.mp hi2
    split at hs
    · cases hs
      simp [mkIssue, List.lookup]
    · cases hs

/-- Every accessibility issue carries severity `"high"`, `"medium"` or
`"low"`. -/
lemma accessibility_issue_severity (emailId : String) (doc : EmailDoc)
    (metadata : Metadata) :
    ∀ i ∈ (accessibility_analyze emailId doc metadata).issues,
      i.lookup "severity" = some "high" ∨ i.lookup "severity" = some "medium" ∨
        i.lookup "severity" = some "low" := by
  intro i hi
  simp only [accessibility_analyze] at hi
  rcases List.mem_append.mp hi with hi | hi4
  rotate_left
  · simp only [check_color_contrast] at hi4
    cases List.mem_singleton.mp (mem_ite_nil hi4)
    simp [mkIssue, List.lookup]
  rcases List.mem_append.mp hi with hi | hi3
  rotate_left
  · simp only [check_link_text_clarity] at hi3
    obtain ⟨link, -, hm⟩ := List.mem_flatMap.mp hi3
    split at hm
    · cases List.mem_singleton.mp hm
      simp [mkIssue, List.lookup]
    split at hm
    · cases List.mem_singleton.mp hm
      simp [mkIssue, List.lookup]
    split at hm
    · cases List.mem_singleton.mp hm
      simp [mkIssue, List.lookup]
    · cases hm
  rcases List.mem_append.mp hi with hi1 | hi2
  · simp only [check_alt_text_quality] at hi1
    obtain ⟨img, -, hm⟩ := List.mem_flatMap.mp hi1
    split at hm
    · cases List.mem_singleton.mp hm
      simp [mkIssue, List.lookup]
    split at hm
    · cases List.mem_singleton.mp hm
      simp [mkIssue, List.lookup]
    split at hm
    · cases List.mem_singleton.mp hm
      simp [mkIssue, List.lookup]
    · cases hm
  · simp only [check_semantic_html] at hi2
    rcases List.mem_append.mp hi2 with h | h
    · split at h
      · cases List.mem_singleton.mp h
        simp [mkIssue, List.lookup]
      split at h
      · cases List.mem_singleton.mp h
        simp [mkIssue, List.lookup]
      split at h
      · cases List.mem_singleton.mp h
        simp [mkIssue, List.lookup]
      · cases h
    · cases List.mem_singleton.mp (mem_ite_nil h)
      simp [mkIssue, List.lookup]

/-! ## Claim C9: severities are always one of the four known values -/

/-- C9: every issue returned by the compliance, tone and accessibility
agents carries a `severity` field equal to `"critical"`, `"high"`,
`"medium"` or `"low"`. -/
theorem C9_severity_always_known (brand : BrandRules)
    (idC idT idA htmlContent : String) (metaC metaT metaA : Metadata)
    (text : ToneDoc) (doc : EmailDoc) :
    (∀ i ∈ (compliance_analyze brand idC htmlContent metaC).issues,
      i.lookup "severity" = some "critical" ∨ i.lookup "severity" = some "high" ∨
        i.lookup "severity" = some "medium" ∨ i.lookup "severity" = some "low") ∧
    (∀ i ∈ (tone_analyze idT text metaT).issues,
      i.lookup "severity" = some "critical" ∨ i.lookup "severity" = some "high" ∨
        i.lookup "severity" = some "medium" ∨ i.lookup "severity" = some "low") ∧
    (∀ i ∈ (accessibility_analyze idA doc metaA).issues,
      i.lookup "severity" = some "critical" ∨ i.lookup "severity" = some "high" ∨
        i.lookup "severity" = some "medium" ∨ i.lookup "severity" = some "low") := by
  refine ⟨fun i hi => ?_, fun i hi => ?_, fun i hi => ?_⟩
  · rcases compliance_issue_severity brand idC htmlContent metaC i hi with h | h <;> tauto
  · rcases tone_issue_severity idT text metaT i hi with h | h | h <;> tauto
  · rcases accessibility_issue_severity idA doc metaA i hi with h | h | h <;> tauto

/-- Witness for C9: the default brand profile on an empty document yields
a compliance issue list whose every severity is known; checked on its
first issue. -/
theorem C9_witness :
    ∀ i ∈ (compliance_analyze {} "e" "" {}).issues,
      i.lookup "severity" = some "critical" ∨ i.lookup "severity" = some "high" ∨
        i.lookup "severity" = some "medium" ∨ i.lookup "severity" = some "low" :=
  (C9_severity_always_known {} "e" "e" "e" "" {} {} {} {} {}).1

/-! ## Claim C10: compliance never emits a critical severity -/

/-- C10: the compliance agent only emits severities `"medium"` and
`"low"`, hence the critical-compliance flag of the orchestrator is always
false, and an overall `"fail"` can only come from more than 3
deterministic failures or a `"high"` risk level. -/
theorem C10_no_critical_compliance (brand : BrandRules) (emailId htmlContent : String)
    (metadata : Metadata) (dets : List DetResult) (ton acc : List Issue)
    (riskLevel : String) :
    (∀ i ∈ (compliance_analyze brand emailId htmlContent metadata).issues,
      i.lookup "severity" = some "medium" ∨ i.lookup "severity" = some "low") ∧
    criticalCompliancePresent
      (compliance_analyze brand emailId htmlContent metadata).issues = false ∧
    (determine_overall_status dets
        (compliance_analyze brand emailId htmlContent metadata).issues ton acc riskLevel
        = "fail" →
      3 < countDeterministicFailures dets ∨ riskLevel = "high") := by
  have hsev := compliance_issue_severity brand emailId htmlContent metadata
  have hcrit : criticalCompliancePresent
      (compliance_analyze brand emailId htmlContent metadata).issues = false := by
    rw [criticalCompliancePresent, List.any_eq_false]
    intro i hi
    rcases hsev i hi with h | h <;> simp [h]
  refine ⟨hsev, hcrit, ?_⟩
  intro hfail
  unfold determine_overall_status at hfail
  split_ifs at hfail with h1 h2
  · simp only [Bool.or_eq_true, decide_eq_true_eq, hcrit] at h1
    tauto
  · exact absurd hfail (by decide)
  · exact absurd hfail (by decide)

/-- Witness for C10: concrete empty inputs. -/
theorem C10_witness :
    criticalCompliancePresent (compliance_analyze {} "e" "" {}).issues = false :=
  (C10_no_critical_compliance {} "e" "" {} [] [] [] "low").2.1

/-! ## Claim C8: the spam-subject scenario -/

/-- C8: for every email id, extracted text and metadata whose subject is
`"FREE OFFER!!! ACT NOW!!!"`, the tone agent returns at least 3 issues,
among them a high spam-keywords issue, a medium excessive-exclamation
issue and a medium all-caps issue. -/
theorem C8_spam_subject_scenario (emailId : String) (text : ToneDoc)
    (metadata : Metadata)
    (hsubj : metadata.subject = some "FREE OFFER!!! ACT NOW!!!") :
    3 ≤ (tone_analyze emailId text metadata).issues.length ∧
    mkIssue "spam_indicators" "Spam keywords detected in subject: act now, free" "high"
      ∈ (tone_analyze emailId text metadata).issues ∧
    mkIssue "spam_indicators" "Too many exclamation marks in subject" "medium"
      ∈ (tone_analyze emailId text metadata).issues ∧
    mkIssue "spam_indicators" "Subject line is all caps" "medium"
      ∈ (tone_analyze emailId text metadata).issues := by
  have hspam : check_subject_for_spam "FREE OFFER!!! ACT NOW!!!" =
      [mkIssue "spam_indicators"
         "Spam keywords detected in subject: act now, free" "high",
       mkIssue "spam_indicators" "Too many exclamation marks in subject" "medium",
       mkIssue "spam_indicators" "Subject line is all caps" "medium"] := by decide
  have hissues : (tone_analyze emailId text metadata).issues =
      check_subject_for_spam "FREE OFFER!!! ACT NOW!!!" ++
        (check_complex_sentences text.sentences ++ (check_clarity text.passiveCount ++
          check_grammar text.repeatedWords)) := by
    simp [tone_analyze, hsubj]
  rw [hissues, hspam]
  refine ⟨by simp, by simp, by simp, by simp⟩

/-- Witness for C8 at concrete inputs. -/
theorem C8_witness :
    3 ≤ (tone_analyze "e" {}
      { subject := some "FREE OFFER!!! ACT NOW!!!" }).issues.length :=
  (C8_spam_subject_scenario "e" {} { subject := some "FREE OFFER!!! ACT NOW!!!" } rfl).1

/-! ## Claim C5: the top-issues view -/

/-- The descending-rank comparison is transitive. -/
lemma topIssueLE_trans : ∀ a b c, topIssueLE a b → topIssueLE b c → topIssueLE a c := by
  intro a b c hab hbc
  simp only [topIssueLE, decide_eq_true_eq] at *
  omega

/-- The descending-rank comparison is total. -/
lemma topIssueLE_total : ∀ a b, topIssueLE a b || topIssueLE b a := by
  intro a b
  simp only [topIssueLE, Bool.or_eq_true, decide_eq_true_eq]
  omega

/-- C5: `top_issues` has length at most 10, is sorted by non-increasing
severity rank, ties keep the concatenation order deterministic →
compliance → tone → accessibility (expressed by filter preservation of
each rank class, as an equality before truncation and as a prefix after
it), and every deterministic entry carries severity `"high"`. -/
theorem C5_top_issues_sorted_bounded (dets : List DetResult) (comp ton acc : List Issue) :
    (extract_top_issues dets comp ton acc).length ≤ 10 ∧
    List.Pairwise (fun a b => severityOrder b.severity ≤ severityOrder a.severity)
      (extract_top_issues dets comp ton acc) ∧
    (∀ r, (sortedTopIssues dets comp ton acc).filter
        (fun x => severityOrder x.severity == r) =
      (allTopIssues dets comp ton acc).filter (fun x => severityOrder x.severity == r)) ∧
    (∀ r, (extract_top_issues dets comp ton acc).filter
        (fun x => severityOrder x.severity == r) <+:
      (allTopIssues dets comp ton acc).filter (fun x => severityOrder x.severity == r)) ∧
    (∀ x ∈ extract_top_issues dets comp ton acc,
      x.type = "deterministic" → x.severity = "high") := by
  have hsorted : List.Pairwise (fun a b => topIssueLE a b = true)
      (sortedTopIssues dets comp ton acc) :=
    List.sorted_mergeSort topIssueLE_trans topIssueLE_total _
  have hfilter : ∀ r, (sortedTopIssues dets comp ton acc).filter
      (fun x => severityOrder x.severity == r) =
      (allTopIssues dets comp ton acc).filter (fun x => severityOrder x.severity == r) := by
    intro r
    refine mergeSort_filter_eq topIssueLE topIssueLE_trans topIssueLE_total _ _ ?_
    intro a b ha hb
    simp only [beq_iff_eq] at ha hb
    simp only [topIssueLE, decide_eq_true_eq, ha, hb]
    omega
  refine ⟨?_, ?_, hfilter, ?_, ?_⟩
  · simp only [extract_top_issues, List.length_take]
    exact inf_le_left
  · have hp := List.Pairwise.sublist
      (List.take_sublist 10 (sortedTopIssues dets comp ton acc)) hsorted
    exact hp.imp fun h => by
      simpa only [topIssueLE, decide_eq_true_eq] using h
  · intro r
    have hpre : extract_top_issues dets comp ton acc <+: sortedTopIssues dets comp ton acc :=
      ⟨(sortedTopIssues dets comp ton acc).drop 10, List.take_append_drop 10 _⟩
    have := hpre.filter (fun x => severityOrder x.severity == r)
    rwa [hfilter r] at this
  · intro x hx htype
    have hmem : x ∈ allTopIssues dets comp ton acc := by
      have h1 : x ∈ sortedTopIssues dets comp ton acc :=
        (List.take_sublist 10 _).subset hx
      exact List.mem_mergeSort.mp h1
    simp only [allTopIssues] at hmem
    rcases List.mem_append.mp hmem with hmem | hacc
    rotate_left
    · obtain ⟨i, -, hi⟩ := List.mem_map.mp hacc
      rw [← hi] at htype
      simp at htype
    rcases List.mem_append.mp hmem with hmem | hton
    rotate_left
    · obtain ⟨i, -, hi⟩ := List.mem_map.mp hton
      rw [← hi] at htype
      simp at htype
    rcases List.mem_append.mp hmem with hdet | hcomp
    · obtain ⟨t, -, ht⟩ := List.mem_map.mp hdet
      rw [← ht]
    · obtain ⟨i, -, hi⟩ := List.mem_map.mp hcomp
      rw [← hi] at htype
      simp at htype

/-- Witness for C5 at a concrete failing test. -/
theorem C5_witness :
    (extract_top_issues [{ testName := "t", status := "fail", details := "d" }]
      [] [] []).length ≤ 10 ∧
    (∀ x ∈ extract_top_issues [{ testName := "t", status := "fail", details := "d" }]
      [] [] [], x.type = "deterministic" → x.severity = "high") :=
  ⟨(C5_top_issues_sorted_bounded [{ testName := "t", status := "fail", details := "d" }]
      [] [] []).1,
   (C5_top_issues_sorted_bounded [{ testName := "t", status := "fail", details := "d" }]
      [] [] []).2.2.2.2⟩

/-! ## Closed forms and bounds for the risk-scoring folds -/

/-- Severity-weight table values used by the loops. -/
lemma sevHigh5 : (severityWeights "high").getD 5 = 5 := by
  simp +decide [severityWeights]

/-- The `"high"` key is present, so the direct indexing yields 5. -/
lemma sevHigh0 : (severityWeights "high").getD 0 = 5 := by
  simp +decide [severityWeights]

/-- The `"critical"` key is present, so the direct indexing yields 10. -/
lemma sevCrit0 : (severityWeights "critical").getD 0 = 10 := by
  simp +decide [severityWeights]

/-- The deterministic loop in closed form: the score accumulates
`(weight/100)·5` over the failing tests only, the max over all tests. -/
lemma deterministicFold_eq (rw : RuleWeights) (tests : List DetResult) :
    deterministicFold rw tests =
      (((tests.filter fun t => t.status = "fail").map
          fun t => (rw t.testName).getD 5 / 100 * 5).sum,
       (tests.map fun t => (rw t.testName).getD 5 / 100 * 5).sum) := by
  have key : ∀ (l : List DetResult) (a b : ℚ),
      l.foldl (deterministicStep rw) (a, b) =
      (a + ((l.filter fun t => t.status = "fail").map
          fun t => (rw t.testName).getD 5 / 100 * 5).sum,
       b + (l.map fun t => (rw t.testName).getD 5 / 100 * 5).sum) := by
    intro l
    induction l with
    | nil => intro a b; simp
    | cons t ts ih =>
      intro a b
      rw [List.foldl_cons]
      by_cases h : t.status = "fail"
      · rw [show deterministicStep rw (a, b) t =
            (a + (rw t.testName).getD 5 / 100 * 5,
             b + (rw t.testName).getD 5 / 100 * 5) by
          simp [deterministicStep, h, sevHigh5, sevHigh0]]
        rw [ih, List.filter_cons, if_pos (by simpa using h)]
        simp only [List.map_cons, List.sum_cons, Prod.mk.injEq]
        constructor <;> ring
      · rw [show deterministicStep rw (a, b) t =
            (a, b + (rw t.testName).getD 5 / 100 * 5) by
          simp [deterministicStep, h, sevHigh0]]
        rw [ih, List.filter_cons, if_neg (by simpa using h)]
        simp only [List.map_cons, List.sum_cons, Prod.mk.injEq]
        constructor <;> ring
  have h0 := key tests 0 0
  simpa [deterministicFold] using h0

/-- The heuristic-category loop in closed form. -/
lemma categoryFold_eq (rw : RuleWeights) (issues : List Issue) :
    categoryFold rw issues =
      ((issues.map fun i => (rw (issueRule i)).getD 10 / 100 *
          (severityWeights (issueSeverity i)).getD 3).sum,
       (issues.map fun i => (rw (issueRule i)).getD 10 / 100 * 10).sum) := by
  have key : ∀ (l : List Issue) (a b : ℚ),
      l.foldl (categoryStep rw) (a, b) =
      (a + (l.map fun i => (rw (issueRule i)).getD 10 / 100 *
          (severityWeights (issueSeverity i)).getD 3).sum,
       b + (l.map fun i => (rw (issueRule i)).getD 10 / 100 * 10).sum) := by
    intro l
    induction l with
    | nil => intro a b; simp
    | cons i is ih =>
      intro a b
      rw [List.foldl_cons]
      rw [show categoryStep rw (a, b) i =
          (a + (rw (issueRule i)).getD 10 / 100 *
              (severityWeights (issueSeverity i)).getD 3,
           b + (rw (issueRule i)).getD 10 / 100 * 10) by
        simp [categoryStep, sevCrit0]]
      rw [ih]
      simp only [List.map_cons, List.sum_cons, Prod.mk.injEq]
      constructor <;> ring
  have h0 := key issues 0 0
  simpa [categoryFold] using h0

/-- A looked-up severity weight, defaulted to 3, is between 0 and 10. -/
lemma sevWeight_bounds (s : String) :
    0 ≤ (severityWeights s).getD 3 ∧ (severityWeights s).getD 3 ≤ 10 := by
  unfold severityWeights
  split_ifs <;> norm_num

/-- A looked-up rule weight with non-negative default is non-negative when
every configured weight is non-negative. -/
lemma ruleWeight_nonneg {rw : RuleWeights} (hw : ∀ s q, rw s = some q → 0 ≤ q)
    (name : String) {d : ℚ} (hd : 0 ≤ d) : 0 ≤ (rw name).getD d := by
  cases h : rw name with
  | none => simpa using hd
  | some q => simpa using hw name q h

/-- Sum of a non-negative function over a filtered list is at most the sum
over the whole list. -/
lemma sum_map_filter_le {α} (p : α → Bool) (f : α → ℚ) (l : List α)
    (h : ∀ x ∈ l, 0 ≤ f x) :
    ((l.filter p).map f).sum ≤ (l.map f).sum := by
  induction l with
  | nil => simp
  | cons a t ih =>
    have ht := ih fun x hx => h x (List.mem_cons_of_mem _ hx)
    have ha := h a (List.mem_cons_self a t)
    simp only [List.filter_cons]
    by_cases hp : p a
    · simp only [hp, if_pos, List.map_cons, List.sum_cons]
      exact add_le_add_left ht _
    · simp only [hp, Bool.false_eq_true, if_neg, List.map_cons, List.sum_cons,
        not_false_iff]
      exact le_trans ht (le_add_of_nonneg_left ha)

/-- The normalised category contribution lies between 0 and its ceiling
whenever the raw score is between 0 and the raw max. -/
lemma weightedContribution_bounds {s m c : ℚ} (h0 : 0 ≤ s) (hsm : s ≤ m) (hc : 0 ≤ c) :
    0 ≤ weightedContribution s m c ∧ weightedContribution s m c ≤ c := by
  unfold weightedContribution
  split_ifs with h
  · have hmaxpos : (0:ℚ) < max m 1 := lt_of_lt_of_le one_pos (le_max_right m 1)
    constructor
    · exact mul_nonneg (div_nonneg h0 (le_of_lt hmaxpos)) hc
    · have hs1 : s / max m 1 ≤ 1 :=
        (div_le_one hmaxpos).mpr (le_trans hsm (le_max_left m 1))
      calc s / max m 1 * c ≤ 1 * c := mul_le_mul_of_nonneg_right hs1 hc
        _ = c := one_mul c
  · exact ⟨le_refl 0, hc⟩

/-- The deterministic raw score is non-negative and at most the raw max
when all configured weights are non-negative. -/
lemma deterministicFold_bounds {rw : RuleWeights}
    (hw : ∀ s q, rw s = some q → 0 ≤ q) (tests : List DetResult) :
    0 ≤ (deterministicFold rw tests).1 ∧
      (deterministicFold rw tests).1 ≤ (deterministicFold rw tests).2 := by
  rw [deterministicFold_eq]
  have hterm : ∀ t : DetResult, 0 ≤ (rw t.testName).getD 5 / 100 * 5 := by
    intro t
    have := ruleWeight_nonneg hw t.testName (by norm_num : (0:ℚ) ≤ 5)
    positivity
  constructor
  · apply List.sum_nonneg
    intro x hx
    obtain ⟨t, -, ht⟩ := List.mem_map.mp hx
    exact ht ▸ hterm t
  · exact sum_map_filter_le _ _ tests fun t _ => hterm t

/-- The heuristic raw score is non-negative and at most the raw max when
all configured weights are non-negative. -/
lemma categoryFold_bounds {rw : RuleWeights}
    (hw : ∀ s q, rw s = some q → 0 ≤ q) (issues : List Issue) :
    0 ≤ (categoryFold rw issues).1 ∧
      (categoryFold rw issues).1 ≤ (categoryFold rw issues).2 := by
  rw [categoryFold_eq]
  have hwnn : ∀ i : Issue, 0 ≤ (rw (issueRule i)).getD 10 / 100 := by
    intro i
    have := ruleWeight_nonneg hw (issueRule i) (by norm_num : (0:ℚ) ≤ 10)
    positivity
  constructor
  · apply List.sum_nonneg
    intro x hx
    obtain ⟨i, -, hi⟩ := List.mem_map.mp hx
    exact hi ▸ mul_nonneg (hwnn i) (sevWeight_bounds (issueSeverity i)).1
  · apply List.sum_le_sum
    intro i _
    exact mul_le_mul_of_nonneg_left (sevWeight_bounds (issueSeverity i)).2 (hwnn i)

/-! ## Rounding lemmas -/

/-- Half-even rounding of a non-negative rational is non-negative. -/
lemma roundHalfEven_nonneg {q : ℚ} (h : 0 ≤ q) : 0 ≤ roundHalfEven q := by
  unfold roundHalfEven
  have hf : (0:ℤ) ≤ ⌊q⌋ := Int.floor_nonneg.mpr h
  split_ifs <;> omega

/-- Half-even rounding never exceeds an integer upper bound. -/
lemma roundHalfEven_le {q : ℚ} {n : ℤ} (h : q ≤ n) : roundHalfEven q ≤ n := by
  unfold roundHalfEven
  have hfl : ⌊q⌋ ≤ n := by
    have := Int.floor_le_floor h
    simpa using this
  have hup : ¬(q - ⌊q⌋ < 1 / 2) → ⌊q⌋ + 1 ≤ n := by
    intro hnot
    by_contra hc
    push_neg at hc
    have heq : ⌊q⌋ = n := le_antisymm hfl (by omega)
    have hle : ((⌊q⌋ : ℤ) : ℚ) ≤ q := Int.floor_le q
    have hq : q = ((⌊q⌋ : ℤ) : ℚ) := by
      refine le_antisymm ?_ hle
      rw [heq]
      exact_mod_cast h
    apply hnot
    rw [hq]
    simp [Int.floor_intCast]
  split_ifs with h1 h2 h3
  · exact hfl
  · exact hup (by linarith)
  · exact hfl
  · exact hup h1

/-- `round(x, 2)` keeps a value inside `[0, 100]`. -/
lemma round2_bounds {q : ℚ} (h0 : 0 ≤ q) (h100 : q ≤ 100) :
    0 ≤ round2 q ∧ round2 q ≤ 100 := by
  unfold round2
  have hnn : (0:ℤ) ≤ roundHalfEven (q * 100) := roundHalfEven_nonneg (by positivity)
  have hle : roundHalfEven (q * 100) ≤ (10000:ℤ) := roundHalfEven_le (by
    push_cast
    linarith)
  constructor
  · have : (0:ℚ) ≤ (roundHalfEven (q * 100) : ℚ) := by exact_mod_cast hnn
    positivity
  · rw [div_le_iff (by norm_num : (0:ℚ) < 100)]
    have : ((roundHalfEven (q * 100) : ℤ) : ℚ) ≤ ((10000:ℤ) : ℚ) := by exact_mod_cast hle
    calc ((roundHalfEven (q * 100) : ℤ) : ℚ) ≤ ((10000:ℤ) : ℚ) := this
      _ = 100 * 100 := by norm_num

/-! ## Claim C1 (amended): score bounds and threshold partition -/

/-- C1 as amended: the normalized score and the returned (2-decimal
rounded) score both lie in `[0, 100]`, and the returned risk level
partitions the range at 80 and 50 with respect to the normalized score
before rounding (the returned rounded score itself can disagree with that
partition within one rounding step, see the counterexample). -/
theorem C1_risk_score_bounds (rw : RuleWeights) (dets : List DetResult)
    (comp ton acc : List Issue) :
    0 ≤ normalizedRiskScore rw dets comp ton acc ∧
    normalizedRiskScore rw dets comp ton acc ≤ 100 ∧
    0 ≤ (calculate_risk rw dets comp ton acc).score ∧
    (calculate_risk rw dets comp ton acc).score ≤ 100 ∧
    ((calculate_risk rw dets comp ton acc).riskLevel = "high" ↔
      80 ≤ normalizedRiskScore rw dets comp ton acc) ∧
    ((calculate_risk rw dets comp ton acc).riskLevel = "medium" ↔
      (50 ≤ normalizedRiskScore rw dets comp ton acc ∧
        normalizedRiskScore rw dets comp ton acc < 80)) ∧
    ((calculate_risk rw dets comp ton acc).riskLevel = "low" ↔
      normalizedRiskScore rw dets comp ton acc < 50) := by
  set n := normalizedRiskScore rw dets comp ton acc with hn
  have h0 : 0 ≤ n := le_min (by norm_num) (le_max_left 0 _)
  have h100 : n ≤ 100 := min_le_left _ _
  have hscore : (calculate_risk rw dets comp ton acc).score = round2 n := rfl
  have hlevel : (calculate_risk rw dets comp ton acc).riskLevel =
      determine_risk_level n := rfl
  have hr := round2_bounds h0 h100
  refine ⟨h0, h100, hscore ▸ hr.1, hscore ▸ hr.2, ?_, ?_, ?_⟩ <;>
    rw [hlevel] <;> unfold determine_risk_level <;> split_ifs with h1 h2 <;>
    simp_all +decide <;> linarith

/-- The rule weights of the C1 counterexample. -/
def rwC1cx : RuleWeights := fun s =>
  if s = "t" then some 20
  else if s = "a" then some (1999 / 20)
  else if s = "b" then some (1 / 20) else none

/-- The risk result of the C1 counterexample: one failing deterministic
test, one critical compliance issue, one critical and one high tone issue
with weights 99.95 and 0.05. -/
def riskC1cx : RiskOut :=
  calculate_risk rwC1cx [{ testName := "t", status := "fail", details := "d" }]
    [mkIssue "r" "x" "critical"]
    [mkIssue "a" "x" "critical", mkIssue "b" "x" "high"] []

/-- C1 counterexample: the returned score field is the rounded value 80
while the risk level is `"medium"` (the normalized score is 79.99625), so
`"medium" iff 50 ≤ score < 80` is false of the returned score. -/
theorem C1_counterexample :
    riskC1cx.score = 80 ∧ riskC1cx.riskLevel = "medium" ∧
    ¬(riskC1cx.riskLevel = "medium" ↔ (50 ≤ riskC1cx.score ∧ riskC1cx.score < 80)) := by
  have hn : normalizedRiskScore rwC1cx
      [{ testName := "t", status := "fail", details := "d" }]
      [mkIssue "r" "x" "critical"]
      [mkIssue "a" "x" "critical", mkIssue "b" "x" "high"] [] = 63997 / 800 := by
    simp +decide only [normalizedRiskScore, deterministicContribution,
      complianceContribution, toneContribution, accessibilityContribution,
      deterministicFold, categoryFold, deterministicStep, categoryStep,
      weightedContribution, severityWeights, issueRule, issueSeverity, issueGet,
      mkIssue, rwC1cx, List.foldl, List.lookup, Option.getD]
    norm_num
  have hscore : riskC1cx.score = 80 := by
    have h1 : riskC1cx.score = round2 (normalizedRiskScore rwC1cx
        [{ testName := "t", status := "fail", details := "d" }]
        [mkIssue "r" "x" "critical"]
        [mkIssue "a" "x" "critical", mkIssue "b" "x" "high"] []) := rfl
    rw [h1, hn]
    norm_num [round2, roundHalfEven]
  have hlevel : riskC1cx.riskLevel = "medium" := by
    have h1 : riskC1cx.riskLevel = determine_risk_level (normalizedRiskScore rwC1cx
        [{ testName := "t", status := "fail", details := "d" }]
        [mkIssue "r" "x" "critical"]
        [mkIssue "a" "x" "critical", mkIssue "b" "x" "high"] []) := rfl
    rw [h1, hn]
    norm_num [determine_risk_level]
  refine ⟨hscore, hlevel, ?_⟩
  rw [hscore, hlevel]
  intro hiff
  have := (hiff.mp rfl).2
  norm_num at this

/-! ## Claim C3: per-category contribution bounds -/

/-- C3: when every configured rule weight is non-negative, each category's
raw score is at most its raw max, each weighted contribution lies between
0 and its ceiling (40 / 25 / 15 / 20), and the four contributions sum to
at most 100 before the final clamp. -/
theorem C3_contribution_ceilings (rw : RuleWeights) (dets : List DetResult)
    (comp ton acc : List Issue) (hw : ∀ s q, rw s = some q → 0 ≤ q) :
    (deterministicFold rw dets).1 ≤ (deterministicFold rw dets).2 ∧
    (categoryFold rw comp).1 ≤ (categoryFold rw comp).2 ∧
    (categoryFold rw ton).1 ≤ (categoryFold rw ton).2 ∧
    (categoryFold rw acc).1 ≤ (categoryFold rw acc).2 ∧
    (0 ≤ deterministicContribution rw dets ∧ deterministicContribution rw dets ≤ 40) ∧
    (0 ≤ complianceContribution rw comp ∧ complianceContribution rw comp ≤ 25) ∧
    (0 ≤ toneContribution rw ton ∧ toneContribution rw ton ≤ 15) ∧
    (0 ≤ accessibilityContribution rw acc ∧ accessibilityContribution rw acc ≤ 20) ∧
    deterministicContribution rw dets + complianceContribution rw comp +
      toneContribution rw ton + accessibilityContribution rw acc ≤ 100 := by
  have hd := deterministicFold_bounds hw dets
  have hc := categoryFold_bounds hw comp
  have ht := categoryFold_bounds hw ton
  have ha := categoryFold_bounds hw acc
  have bd : 0 ≤ deterministicContribution rw dets ∧
      deterministicContribution rw dets ≤ 40 :=
    weightedContribution_bounds hd.1 hd.2 (by norm_num)
  have bc : 0 ≤ complianceContribution rw comp ∧
      complianceContribution rw comp ≤ 25 :=
    weightedContribution_bounds hc.1 hc.2 (by norm_num)
  have bt : 0 ≤ toneContribution rw ton ∧ toneContribution rw ton ≤ 15 :=
    weightedContribution_bounds ht.1 ht.2 (by norm_num)
  have ba : 0 ≤ accessibilityContribution rw acc ∧
      accessibilityContribution rw acc ≤ 20 :=
    weightedContribution_bounds ha.1 ha.2 (by norm_num)
  exact ⟨hd.2, hc.2, ht.2, ha.2, bd, bc, bt, ba, by linarith [bd.2, bc.2, bt.2, ba.2]⟩

/-- Witness for C3 at the empty configuration and empty inputs. -/
theorem C3_witness :
    0 ≤ deterministicContribution (fun _ => none) [] ∧
    deterministicContribution (fun _ => none) [] + complianceContribution (fun _ => none) [] +
      toneContribution (fun _ => none) [] + accessibilityContribution (fun _ => none) [] ≤ 100 :=
  ⟨(C3_contribution_ceilings (fun _ => none) [] [] [] []
      (fun s q h => Option.noConfusion h)).2.2.2.2.1.1,
   (C3_contribution_ceilings (fun _ => none) [] [] [] []
      (fun s q h => Option.noConfusion h)).2.2.2.2.2.2.2.2⟩

/-! ## Claim C4 (corrected): the deterministic raw max -/

/-- The value claim C4 asserts for the deterministic `raw_max`: the sum,
over tests with status `"fail"` only, of `(rule_weight/100) * 5` (this is
what the source accumulates into `deterministic_score`, not into
`deterministic_max`). -/
def deterministicFailsOnlySum (rw : RuleWeights) (tests : List DetResult) : ℚ :=
  ((tests.filter fun t => t.status = "fail").map
    fun t => (rw t.testName).getD 5 / 100 * 5).sum

/-- C4 counterexample: a single passing test contributes `0.25` to the
reported `raw_max`, while the claimed failing-tests-only sum is `0`. -/
theorem C4_counterexample :
    (calculate_risk (fun _ => none)
        [{ testName := "x", status := "pass", details := "d" }] [] [] []
      ).breakdown.deterministic.rawMax ≠
    deterministicFailsOnlySum (fun _ => none)
      [{ testName := "x", status := "pass", details := "d" }] := by
  have h1 : (calculate_risk (fun _ => none)
      [{ testName := "x", status := "pass", details := "d" }] [] [] []
      ).breakdown.deterministic.rawMax =
      round2 (deterministicFold (fun _ => none)
        [{ testName := "x", status := "pass", details := "d" }]).2 := rfl
  have h2 : (deterministicFold (fun _ => none)
      [{ testName := "x", status := "pass", details := "d" }]).2 = 1 / 4 := by
    simp +decide only [deterministicFold, deterministicStep, severityWeights,
      List.foldl, Option.getD]
    norm_num
  have h3 : deterministicFailsOnlySum (fun _ => none)
      [{ testName := "x", status := "pass", details := "d" }] = 0 := by
    simp +decide [deterministicFailsOnlySum]
  rw [h1, h2, h3]
  norm_num [round2, roundHalfEven]

/-- C4 as amended: the deterministic `raw_max` is accumulated for every
test regardless of status — the reported value is the 2-decimal rounding
of the sum over all tests of `(rule_weight/100) * 5` — while only the raw
score is restricted to failing tests. -/
theorem C4_raw_max_all_tests (rw : RuleWeights) (dets : List DetResult)
    (comp ton acc : List Issue) :
    (calculate_risk rw dets comp ton acc).breakdown.deterministic.rawMax =
      round2 ((dets.map fun t => (rw t.testName).getD 5 / 100 * 5).sum) ∧
    (deterministicFold rw dets).2 =
      (dets.map fun t => (rw t.testName).getD 5 / 100 * 5).sum ∧
    (deterministicFold rw dets).1 = deterministicFailsOnlySum rw dets := by
  have he := deterministicFold_eq rw dets
  refine ⟨?_, ?_, ?_⟩
  · have h1 : (calculate_risk rw dets comp ton acc).breakdown.deterministic.rawMax =
        round2 (deterministicFold rw dets).2 := rfl
    rw [h1, he]
  · rw [he]
  · rw [he]
    rfl

/-! ## Claim C6: totality and ordering of fix generation -/

/-- A successful lookup comes from an entry of the association list. -/
lemma lookup_mem {α β} [BEq α] {l : List (α × β)} {k : α} {v : β}
    (h : l.lookup k = some v) : ∃ k2, (k2, v) ∈ l := by
  induction l with
  | nil => cases h
  | cons p t ih =>
    simp only [List.lookup] at h
    split at h
    · cases h
      exact ⟨p.1, by simp⟩
    · obtain ⟨k2, hk2⟩ := ih h
      exact ⟨k2, List.mem_cons_of_mem _ hk2⟩

/-- A key found in the front part of an appended association list is found
in the whole list. -/
lemma lookup_append_isSome {l1 l2 : List (String × String)} {k : String}
    (h : (l1.lookup k).isSome) : ((l1 ++ l2).lookup k).isSome := by
  induction l1 with
  | nil => simp at h
  | cons p t ih =>
    simp only [List.cons_append, List.lookup] at h ⊢
    split at h
    · simp_all
    · exact ih h

/-- The keys of a template starting with a literal chunk. -/
lemma templateKeys_lit (s : String) (rest : Template) :
    templateKeys (Chunk.lit s :: rest) = templateKeys rest := by
  simp [templateKeys, List.filterMap_cons]

/-- The keys of a template starting with a field chunk. -/
lemma templateKeys_field (k : String) (rest : Template) :
    templateKeys (Chunk.field k :: rest) = k :: templateKeys rest := by
  simp [templateKeys, List.filterMap_cons]

/-- Rendering succeeds when every referenced field is available. -/
lemma renderTemplate_isSome (m : String → Option String) (tpl : Template)
    (h : ∀ k ∈ templateKeys tpl, (m k).isSome) : (renderTemplate m tpl).isSome := by
  induction tpl with
  | nil => rfl
  | cons c rest ih =>
    cases c with
    | lit s =>
      have hrest := ih fun k hk => h k (by rw [templateKeys_lit]; exact hk)
      obtain ⟨r, hr⟩ := Option.isSome_iff_exists.mp hrest
      simp [renderTemplate, hr]
    | field k =>
      have hk : (m k).isSome := h k (by rw [templateKeys_field]; exact List.mem_cons_self k _)
      obtain ⟨v, hv⟩ := Option.isSome_iff_exists.mp hk
      have hrest := ih fun k2 hk2 =>
        h k2 (by rw [templateKeys_field]; exact List.mem_cons_of_mem _ hk2)
      obtain ⟨r, hr⟩ := Option.isSome_iff_exists.mp hrest
      simp [renderTemplate, hv, hr]

/-- The safe map always answers for a key the default table covers. -/
lemma safeGet_isSome {defaults : List (String × String)} {k : String}
    (hd : (defaults.lookup k).isSome) (fields : List (String × String)) :
    (safeGet fields defaults k).isSome := by
  unfold safeGet
  cases hf : fields.lookup k
  · exact hd
  · rfl

/-- Every field referenced by a table template is covered by the
`setdefault` table. -/
lemma fixTemplates_keys_covered :
    fixTemplates.all
      (fun p => (templateKeys p.2).all fun k => (fixDefaults.lookup k).isSome) = true := by
  decide

/-- The `setdefault` table of the issue generators covers everything the
deterministic `setdefault` table covers. -/
lemma issueFixDefaults_covers {k : String} (h : (fixDefaults.lookup k).isSome) :
    (issueFixDefaults.lookup k).isSome :=
  lookup_append_isSome h

/-- `_generate_deterministic_fix` never fails: every template field is
either `setdefault`-covered or (for the generic fallback) the always
present `test_name`. -/
lemma generate_deterministic_fix_isSome (test : DetResult) :
    (generate_deterministic_fix test).isSome := by
  unfold generate_deterministic_fix
  have hrender : (renderTemplate (safeGet test.fields fixDefaults)
      ((fixTemplates.lookup test.testName).getD detFallbackTemplate)).isSome := by
    cases htpl : fixTemplates.lookup test.testName with
    | none =>
      apply renderTemplate_isSome
      intro k hk
      simp +decide [templateKeys, detFallbackTemplate, List.filterMap_cons] at hk
      subst hk
      simp [safeGet, DetResult.fields, List.lookup]
    | some tpl =>
      apply renderTemplate_isSome
      intro k hk
      obtain ⟨k2, hmem⟩ := lookup_mem htpl
      have hall := List.all_eq_true.mp fixTemplates_keys_covered (k2, tpl) hmem
      have hcov := List.all_eq_true.mp hall k hk
      exact safeGet_isSome hcov test.fields
  obtain ⟨s, hs⟩ := Option.isSome_iff_exists.mp hrender
  simp [hs]

/-- The shared issue generator never fails when the fallback's fields are
covered by the issue `setdefault` table. -/
lemma generate_issue_fix_isSome (category defaultRule : String) (fallback : Template)
    (hfb : ∀ k ∈ templateKeys fallback, (issueFixDefaults.lookup k).isSome)
    (issue : Issue) :
    (generate_issue_fix category defaultRule fallback issue).isSome := by
  unfold generate_issue_fix
  have hrender : (renderTemplate (safeGet issue issueFixDefaults)
      ((fixTemplates.lookup (issueGet issue "rule" defaultRule)).getD fallback)).isSome := by
    cases htpl : fixTemplates.lookup (issueGet issue "rule" defaultRule) with
    | none =>
      exact renderTemplate_isSome _ _ fun k hk => safeGet_isSome (hfb k hk) issue
    | some tpl =>
      apply renderTemplate_isSome
      intro k hk
      obtain ⟨k2, hmem⟩ := lookup_mem htpl
      have hall := List.all_eq_true.mp fixTemplates_keys_covered (k2, tpl) hmem
      have hcov := List.all_eq_true.mp hall k hk
      exact safeGet_isSome (issueFixDefaults_covers hcov) issue
  obtain ⟨s, hs⟩ := Option.isSome_iff_exists.mp hrender
  simp [hs]

/-- `_generate_compliance_fix` never fails. -/
lemma generate_compliance_fix_isSome (issue : Issue) :
    (generate_compliance_fix issue).isSome :=
  generate_issue_fix_isSome _ _ _
    (by intro k hk; simp +decide [templateKeys, complianceFallbackTemplate,
          List.filterMap_cons] at hk; subst hk; decide) issue

/-- `_generate_tone_fix` never fails. -/
lemma generate_tone_fix_isSome (issue : Issue) :
    (generate_tone_fix issue).isSome :=
  generate_issue_fix_isSome _ _ _
    (by intro k hk; simp +decide [templateKeys, toneFallbackTemplate,
          List.filterMap_cons] at hk; subst hk; decide) issue

/-- `_generate_accessibility_fix` never fails. -/
lemma generate_accessibility_fix_isSome (issue : Issue) :
    (generate_accessibility_fix issue).isSome :=
  generate_issue_fix_isSome _ _ _
    (by intro k hk; simp +decide [templateKeys, accessibilityFallbackTemplate,
          List.filterMap_cons] at hk; subst hk; decide) issue

/-- The ascending priority comparison is transitive. -/
lemma fixLE_trans : ∀ a b c, fixLE a b → fixLE b c → fixLE a c := by
  intro a b c hab hbc
  simp only [fixLE, decide_eq_true_eq] at *
  omega

/-- The ascending priority comparison is total. -/
lemma fixLE_total : ∀ a b, fixLE a b || fixLE b a := by
  intro a b
  simp only [fixLE, Bool.or_eq_true, decide_eq_true_eq]
  omega

/-- C6: `generate_fixes` is total on well-typed input (never raises: it
always returns a fix list); absent template fields are substituted with
the safe literal defaults; unrecognized rule and test names use the
generic per-category fallback templates; the result has length at most
(failing deterministic results) + (compliance issues) + (tone issues) +
(accessibility issues) and is stably sorted ascending by priority rank
(stability expressed by filter preservation of each rank class). -/
theorem C6_fix_generation_total_sorted (dets : List DetResult)
    (comp ton acc : List Issue) (risk : RiskOut) :
    (∃ fixes, generate_fixes dets comp ton acc risk = some fixes ∧
      fixes.length ≤ countDeterministicFailures dets + comp.length + ton.length
        + acc.length ∧
      List.Pairwise (fun a b => priorityOrder a.priority ≤ priorityOrder b.priority)
        fixes ∧
      (∀ unsorted, unsortedFixes dets comp ton acc = some unsorted →
        ∀ r, fixes.filter (fun f => priorityOrder f.priority == r) =
          unsorted.filter (fun f => priorityOrder f.priority == r))) ∧
    (∀ issue : Issue, ∀ k v, issue.lookup k = none →
      issueFixDefaults.lookup k = some v → safeGet issue issueFixDefaults k = some v) ∧
    (∀ test : DetResult, fixTemplates.lookup test.testName = none →
      ∃ f, generate_deterministic_fix test = some f ∧
        f.suggestion = "Fix " ++ test.testName ++ " issue") ∧
    (∀ issue : Issue, fixTemplates.lookup (issueGet issue "rule" "compliance") = none →
      ∃ f, generate_compliance_fix issue = some f ∧
        f.suggestion = "Fix compliance issue: " ++ issueGet issue "description" "issue") := by
  refine ⟨?_, ?_, ?_, ?_⟩
  · have hall : ∀ x ∈ (dets.filter fun test => test.status = "fail").map
          generate_deterministic_fix
        ++ comp.map generate_compliance_fix ++ ton.map generate_tone_fix
        ++ acc.map generate_accessibility_fix, x.isSome := by
      intro x hx
      rcases List.mem_append.mp hx with hx | hx4
      rotate_left
      · obtain ⟨i, -, hi⟩ := List.mem_map.mp hx4
        exact hi ▸ generate_accessibility_fix_isSome i
      rcases List.mem_append.mp hx with hx | hx3
      rotate_left
      · obtain ⟨i, -, hi⟩ := List.mem_map.mp hx3
        exact hi ▸ generate_tone_fix_isSome i
      rcases List.mem_append.mp hx with hx1 | hx2
      · obtain ⟨t, -, ht⟩ := List.mem_map.mp hx1
        exact ht ▸ generate_deterministic_fix_isSome t
      · obtain ⟨i, -, hi⟩ := List.mem_map.mp hx2
        exact hi ▸ generate_compliance_fix_isSome i
    obtain ⟨un, hun, hlen⟩ := allSome_eq_some hall
    have hun2 : unsortedFixes dets comp ton acc = some un := hun
    refine ⟨prioritize_fixes un, ?_, ?_, ?_, ?_⟩
    · simp [generate_fixes, hun2]
    · have h1 : (prioritize_fixes un).length = un.length := by
        simp [prioritize_fixes, List.length_mergeSort]
      rw [h1, hlen]
      simp only [countDeterministicFailures, List.length_append, List.length_map]
      omega
    · have hp := List.sorted_mergeSort fixLE_trans fixLE_total un
      exact hp.imp fun h => by simpa only [fixLE, decide_eq_true_eq] using h
    · intro u hu r
      rw [hun2] at hu
      cases hu
      refine mergeSort_filter_eq fixLE fixLE_trans fixLE_total _ _ ?_
      intro a b ha hb
      simp only [beq_iff_eq] at ha hb
      simp only [fixLE, decide_eq_true_eq, ha, hb]
      omega
  · intro issue k v h1 h2
    simp [safeGet, h1, h2]
  · intro test ht
    have hm : safeGet test.fields fixDefaults "test_name" = some test.testName := by
      simp [safeGet, DetResult.fields, List.lookup]
    refine ⟨⟨"deterministic", test.testName, test.details,
      "Fix " ++ (test.testName ++ (" issue" ++ "")), "high"⟩, ?_, ?_⟩
    · simp [generate_deterministic_fix, ht, detFallbackTemplate, renderTemplate, hm]
    · simp [String.append_assoc]
  · intro issue ht
    have hm : safeGet issue issueFixDefaults "description" =
        some (issueGet issue "description" "issue") := by
      unfold safeGet issueGet
      cases h : issue.lookup "description" <;> simp +decide [h]
    refine ⟨⟨"compliance", issueGet issue "rule" "compliance",
      issueGet issue "description" "",
      "Fix compliance issue: " ++ (issueGet issue "description" "issue" ++ ""),
      issueGet issue "severity" "medium"⟩, ?_, ?_⟩
    · simp [generate_compliance_fix, generate_issue_fix, ht,
        complianceFallbackTemplate, renderTemplate, hm]
    · simp

/-- Witness for C6: fixes exist for concrete inputs and the safe default
substitution answers on an issue missing the `element` field. -/
theorem C6_witness :
    safeGet [] issueFixDefaults "element" = some "element" ∧
    (∃ f, generate_deterministic_fix ⟨"nonexistent_check", "fail", "d", []⟩ = some f ∧
      f.suggestion = "Fix " ++ "nonexistent_check" ++ " issue") :=
  ⟨(C6_fix_generation_total_sorted [] [] [] []
      ⟨0, "low", ⟨⟨0,0,0,0⟩, ⟨0,0,0,0⟩, ⟨0,0,0,0⟩, ⟨0,0,0,0⟩⟩⟩).2.1 []
      "element" "element" rfl (by decide),
   (C6_fix_generation_total_sorted [] [] [] []
      ⟨0, "low", ⟨⟨0,0,0,0⟩, ⟨0,0,0,0⟩, ⟨0,0,0,0⟩, ⟨0,0,0,0⟩⟩⟩).2.2.1
      ⟨"nonexistent_check", "fail", "d", []⟩ (by decide)⟩

end EmailQA
